import Mathlib

/-!
Verification of the terrance-teacher core against its specification.

The development shallowly embeds the Python sources:
  * `src/terrance_teacher/core/examiner.py`     (the Grader)
  * `src/terrance_teacher/core/teacher.py`      (the Content Generator)
  * `src/terrance_teacher/core/orchestrator.py` (the Coordinator)
  * `src/terrance_teacher/memory/repo.py`       (the Knowledge Store)

Strings are Lean `String`s; the SQLite-backed store is modelled as an
explicit state record; the outbound generation call (`OllamaClient.generate`,
returning `None` on any transport failure) is modelled as an `Option String`
parameter, and the JSON-extraction/validation step as an abstract
`String → Option _` parameter, so theorems quantify over every possible
outcome of the external call.
-/

set_option maxRecDepth 4096

/-- Embeds Python `str.lower()` (source texts are ASCII). -/
def lowerStr (s : String) : String :=
  String.mk (s.data.map Char.toLower)

/-- `leadsWith needle hay` is true when `needle` occurs at the start of `hay`. -/
def leadsWith : List Char → List Char → Bool
  | [], _ => true
  | _ :: _, [] => false
  | a :: as, b :: bs => a == b && leadsWith as bs

/-- `containsSub hay needle`: `needle` occurs contiguously somewhere in `hay`.
Embeds Python's substring test `needle in hay`. -/
def containsSub : List Char → List Char → Bool
  | [], needle => needle.isEmpty
  | h :: t, needle => leadsWith needle (h :: t) || containsSub t needle

/-- Python `needle in hay` on strings. -/
def strContains (hay needle : String) : Bool :=
  containsSub hay.data needle.data

/-- Embeds Python `not s.strip()`: the string is empty or whitespace-only
(ASCII whitespace: the sources never feed exotic Unicode spacing here). -/
def isBlankStr (s : String) : Bool :=
  s.data.all Char.isWhitespace

/-- `core/models.py`: `Grade(BaseModel)` with `score : int`, `feedback : str`. -/
structure Grade where
  score : Nat
  feedback : String
deriving DecidableEq

/-- `core/models.py`: `LlmGrade(BaseModel)` with `feedback : str`,
`score : int | None = None`. -/
structure LlmGrade where
  feedback : String
  score : Option Nat := none
deriving DecidableEq

/-- `examiner.py` `_grade_deterministic`: the fixed per-topic keyword mapping
`topic_keywords`; `none` when `topic_lower not in topic_keywords`. -/
def topicKeywords (topicLower : String) : Option (List String) :=
  if topicLower = "tokens" then
    some ["truncation", "context limit", "constraint", "context window", "token limit"]
  else if topicLower = "tokenization" then
    some ["truncation", "context limit", "constraint", "context window", "token limit"]
  else if topicLower = "temperature" then
    some ["temperature", "sampling", "randomness", "deterministic", "top-p", "nucleus", "entropy"]
  else if topicLower = "prompting" then
    some ["system prompt", "instructions", "constraints", "few-shot", "zero-shot", "role", "persona"]
  else if topicLower = "rag" then
    some ["retrieval", "embeddings", "vector database", "vector store", "context injection",
          "chunks", "chunking", "citation", "grounding"]
  else if topicLower = "hallucinations" then
    some ["hallucination", "fabricate", "grounding", "verification", "confidence", "retrieval"]
  else if topicLower = "agents" then
    some ["agent", "tool use", "tools", "planning", "loop", "iteration", "memory", "reflection"]
  else
    none

/-- `examiner.py` `_grade_deterministic`, unknown-topic branch feedback
(f-string interpolating `topic_lower`). -/
def unknownTopicFeedback (topicLower : String) : String :=
  "Grading for \x27" ++ topicLower ++ "\x27 is not yet implemented. This is a placeholder grade. " ++
  "In future versions, answers will be evaluated using LLM-based grading."

/-- `examiner.py` `Examiner._grade_deterministic(topic_lower, answer_lower)`. -/
def grade_deterministic (topicLower answerLower : String) : Grade :=
  match topicKeywords topicLower with
  | none =>
      { score := 50, feedback := unknownTopicFeedback topicLower }
  | some keywords =>
      let foundKeywords := keywords.filter (fun kw => strContains answerLower kw)
      let numFound := foundKeywords.length
      if numFound ≥ 2 then
        { score := 85
          feedback :=
            "Excellent! You identified multiple key concepts: " ++
            String.intercalate ", " foundKeywords ++
            ". Your understanding of " ++ topicLower ++
            " demonstrates good grasp of the core principles." }
      else if numFound = 1 then
        let missing := (keywords.take 3).filter (fun kw => ¬ foundKeywords.contains kw)
        let suggestions := String.intercalate ", " (missing.take 2)
        { score := 65
          feedback :=
            "Good start! You mentioned \x27" ++ foundKeywords.headD "" ++
            "\x27, which is relevant. To improve, consider discussing: " ++ suggestions ++ "." }
      else
        let suggestions := String.intercalate ", " (keywords.take 2)
        { score := 35
          feedback :=
            "Your answer touches on " ++ topicLower ++
            " but misses key concepts. Consider discussing: " ++ suggestions ++ "." }

/-- The `if response is not None: try ... except: pass` shape shared by
`examiner.py` and `teacher.py`: a best-effort outbound call whose transport
failure (`resp = none`) or parse/validation failure (`parse r = none`)
uniformly yields no result. -/
def bestEffortCall {α : Type} (parse : String → Option α) (resp : Option String) :
    Option α :=
  match resp with
  | none => none
  | some r => parse r

/-- `examiner.py` `Examiner.grade_answer`, empty-answer branch feedback. -/
def emptyAnswerFeedback : String :=
  "Your answer is empty. Please provide a response to be graded."

/-- The deterministic part of `examiner.py` `Examiner.grade_answer`:
empty/whitespace-only answers short-circuit to the fixed low grade, otherwise
topic and answer are lowercased and handed to `_grade_deterministic`. -/
def examinerDetGrade (topic answer : String) : Grade :=
  if isBlankStr answer then
    { score := 10, feedback := emptyAnswerFeedback }
  else
    grade_deterministic (lowerStr topic) (lowerStr answer)

/-- `examiner.py` `Examiner.grade_answer(topic, answer)`.
`ollamaResponse` embeds `ollama_client.generate(grading_prompt)` (`none` on any
transport failure, `ollama.py` returns `None` there); `parseLlm` embeds the
code-fence stripping + `json.loads` + `LlmGrade.model_validate` pipeline, which
yields `none` on any `JSONDecodeError`/`ValidationError`/`KeyError`. -/
def examinerGradeAnswer (parseLlm : String → Option LlmGrade)
    (ollamaResponse : Option String) (topic answer : String) :
    Grade × Option LlmGrade :=
  let grade := examinerDetGrade topic answer
  let llmGrade : Option LlmGrade := bestEffortCall parseLlm ollamaResponse
  (grade, llmGrade)

/-- `core/models.py`: `Lesson(BaseModel)` with the five string fields. -/
structure Lesson where
  topic : String
  explanation : String
  «example» : String
  question : String
  task : String
deriving DecidableEq

/-- `memory/repo.py` / `memory/db.py`: one row of `lesson_attempts`.
`created_at` is an ISO-8601 UTC wall-clock string in the source; the clock is
monotone across the single-threaded process, so it is modelled as a monotone
`Nat` tick (the log position at insertion time). -/
structure Attempt where
  topic : String
  answer : String
  score : Nat
  feedback : String
  created_at : Nat
  llm_feedback : Option String
  llm_score : Option Nat
deriving DecidableEq

/-- The SQLite store behind `MemoryRepository`: the append-only
`lesson_attempts` log and the `weaknesses` table (`topic` is its primary key,
one row per topic, modelled as an association list in insertion order). -/
structure RepoState where
  attempts : List Attempt
  weaknesses : List (String × Nat)
deriving DecidableEq

/-- `repo.py` `MemoryRepository.save_attempt`: INSERT one `lesson_attempts` row.
The Python signature defaults `llm_feedback`/`llm_score` to `None`. -/
def save_attempt (st : RepoState) (topic answer : String) (score : Nat)
    (feedback : String) (llm_feedback : Option String) (llm_score : Option Nat) :
    RepoState :=
  { st with attempts := st.attempts ++
      [{ topic := topic, answer := answer, score := score, feedback := feedback,
         created_at := st.attempts.length,
         llm_feedback := llm_feedback, llm_score := llm_score }] }

/-- `SELECT count FROM weaknesses WHERE topic = ?` (first matching row). -/
def weaknessRow (w : List (String × Nat)) (topic : String) : Option Nat :=
  (w.find? (fun p => p.1 == topic)).map (fun p => p.2)

/-- The row transformation of `UPDATE weaknesses SET count = count + 1 WHERE
topic = ?`: bump the count of a matching row, leave other rows unchanged. -/
def bumpRow (topic : String) (p : String × Nat) : String × Nat :=
  if p.1 == topic then (p.1, p.2 + 1) else p

/-- `repo.py` `MemoryRepository.increment_weakness`: UPDATE `count = count + 1`
for the existing row, else INSERT `(topic, 1)`. -/
def increment_weakness (st : RepoState) (topic : String) : RepoState :=
  match weaknessRow st.weaknesses topic with
  | some _ =>
      { st with weaknesses := st.weaknesses.map (bumpRow topic) }
  | none =>
      { st with weaknesses := st.weaknesses ++ [(topic, 1)] }

/-- `repo.py` `MemoryRepository.get_weakness_count`: the row's count, 0 if absent. -/
def get_weakness_count (st : RepoState) (topic : String) : Nat :=
  (weaknessRow st.weaknesses topic).getD 0

/-- `repo.py` `MemoryRepository.get_last_attempt_topic`:
`ORDER BY created_at DESC LIMIT 1` — with the monotone clock this is the most
recently inserted row. -/
def get_last_attempt_topic (st : RepoState) : Option String :=
  st.attempts.getLast?.map (fun a => a.topic)

/-- Byte-code lexicographic strict order on char lists: SQLite's BINARY
collation (and, on this ASCII data, ordinary alphabetical order). -/
def charListLtB : List Char → List Char → Bool
  | _, [] => false
  | [], _ :: _ => true
  | a :: as, b :: bs => a.toNat < b.toNat || (a.toNat == b.toNat && charListLtB as bs)

/-- `a` sorts strictly before `b` under SQLite BINARY collation. -/
def strLtB (a b : String) : Bool :=
  charListLtB a.data b.data

/-- `p` sorts strictly before `best` under `ORDER BY count DESC, topic ASC`:
strictly greater count, or equal count and strictly smaller topic. -/
def precB (p best : String × Nat) : Bool :=
  best.2 < p.2 || (best.2 == p.2 && strLtB p.1 best.1)

/-- Keep the row that sorts first under `ORDER BY count DESC, topic ASC`. -/
def pickBetter (best p : String × Nat) : String × Nat :=
  if precB p best then p else best

/-- `repo.py` `MemoryRepository.get_top_weak_topic`:
`SELECT topic FROM weaknesses ORDER BY count DESC, topic ASC LIMIT 1` — the
row with the greatest count, ties resolved by the least topic string. -/
def get_top_weak_topic (st : RepoState) : Option String :=
  match st.weaknesses with
  | [] => none
  | x :: xs => some (xs.foldl pickBetter x).1

/-- `teacher.py` `Teacher.__init__`: the single seeded lesson `_lessons["tokens"]`. -/
def seededTokensLesson : Lesson :=
  { topic := "tokens"
    explanation :=
      "Tokens are the fundamental units that LLMs process. A token is roughly 0.75 words " ++
      "on average, but can be as short as a character or as long as a word. When you send " ++
      "text to an LLM, it\x27s first tokenized (split into tokens) using a tokenizer specific " ++
      "to that model. Understanding tokens is critical because:\n" ++
      "- Context windows are measured in tokens, not words\n" ++
      "- Pricing is often per token (input + output)\n" ++
      "- Tokenization affects prompt engineering (some words become multiple tokens)\n" ++
      "- Different models have different tokenizers (GPT-4 vs Claude vs Llama)"
    «example» :=
      "Consider the phrase \x27Hello, world!\x27\n" ++
      "- GPT-4 tokenizer: [\x27Hello\x27, \x27,\x27, \x27 world\x27, \x27!\x27] → 4 tokens\n" ++
      "- Some tokenizers might split \x27Hello\x27 into [\x27Hel\x27, \x27lo\x27] → 5 tokens\n" ++
      "- Token counts vary by model and language\n\n" ++
      "In practice, you can estimate: 1 token ≈ 4 characters for English text, " ++
      "but always use the model\x27s tokenizer for accurate counts."
    question :=
      "Why does the same text produce different token counts across models, " ++
      "and how does this impact prompt engineering strategies?"
    task :=
      "Write a Python function that estimates token count for a given string using " ++
      "the rule of thumb (1 token ≈ 4 characters). Then, use the tiktoken library " ++
      "to get the actual token count for GPT-4. Compare the results for the text: " ++
      "\x27The quick brown fox jumps over the lazy dog.\x27" }

/-- `teacher.py` `_build_fallback_lesson`, Beginner-tier explanation
(f-string interpolating `topic` twice). -/
def beginnerExplanation (topic : String) : String :=
  "[Beginner] Lesson on \x27" ++ topic ++ "\x27 is not yet available. This is a placeholder lesson. " ++
  "\x27" ++ topic ++ "\x27 is an important concept in LLM systems. " ++
  "In future versions, lessons will be generated dynamically using LLMs. " ++
  "For now, this provides a basic introduction to get you started."

/-- `teacher.py` `_build_fallback_lesson`, Intermediate-tier explanation. -/
def intermediateExplanation (topic : String) : String :=
  "[Intermediate] Lesson on \x27" ++ topic ++ "\x27 is not yet available. This is a placeholder lesson. " ++
  "\x27" ++ topic ++ "\x27 is a nuanced concept in LLM systems that requires understanding of tradeoffs and edge cases. " ++
  "In future versions, lessons will be generated dynamically using LLMs. " ++
  "This intermediate-level content explores the concept more deeply, including considerations " ++
  "of when and how to apply it effectively, as well as potential limitations."

/-- `teacher.py` `_build_fallback_lesson`, Advanced-tier explanation. -/
def advancedExplanation (topic : String) : String :=
  "[Advanced] Lesson on \x27" ++ topic ++ "\x27 is not yet available. This is a placeholder lesson. " ++
  "\x27" ++ topic ++ "\x27 is a complex concept in LLM systems that requires systems thinking and " ++
  "understanding of failure modes, operational constraints, and production considerations. " ++
  "In future versions, lessons will be generated dynamically using LLMs. " ++
  "This advanced-level content delves into the deeper implications, including how it fits " ++
  "into larger system architectures, what can go wrong in production, and how to design " ++
  "robust implementations that account for real-world constraints and edge cases."

/-- `teacher.py` `Teacher._build_fallback_lesson(topic, weakness_count)`:
the tiered placeholder lesson (Beginner for count ≤ 1, Intermediate for
count in [2, 3], Advanced otherwise). -/
def build_fallback_lesson (topic : String) (weakness_count : Nat) : Lesson :=
  if weakness_count ≤ 1 then
    { topic := topic
      explanation := beginnerExplanation topic
      «example» :=
        "A simple example of \x27" ++ topic ++ "\x27 would demonstrate the core concept. " ++
        "Example content will be generated when this lesson is fully implemented."
      question :=
        "What is the basic definition of \x27" ++ topic ++ "\x27? " ++
        "This question will be customized in future versions."
      task :=
        "Research \x27" ++ topic ++ "\x27 independently and write a brief summary (1-2 paragraphs). " ++
        "In future versions, you\x27ll receive structured tasks and automated grading." }
  else if weakness_count = 2 ∨ weakness_count = 3 then
    { topic := topic
      explanation := intermediateExplanation topic
      «example» :=
        "An intermediate example of \x27" ++ topic ++ "\x27 would illustrate both the benefits and tradeoffs. " ++
        "For instance, you might see how it works in ideal conditions, but also encounter " ++
        "edge cases where it fails or requires careful handling. " ++
        "Example content will be generated when this lesson is fully implemented."
      question :=
        "How does \x27" ++ topic ++ "\x27 interact with other LLM concepts, and what are the key tradeoffs? " ++
        "This question requires reasoning about relationships and implications."
      task :=
        "Research \x27" ++ topic ++ "\x27 and create a short analysis: (1) Define the concept, " ++
        "(2) Identify one key tradeoff or limitation, (3) Propose a scenario where it would be most effective. " ++
        "In future versions, you\x27ll receive structured tasks and automated grading." }
  else
    { topic := topic
      explanation := advancedExplanation topic
      «example» :=
        "An advanced example of \x27" ++ topic ++ "\x27 would demonstrate failure modes and operational considerations. " ++
        "This might include: how it behaves under load, what happens when assumptions break down, " ++
        "how to monitor and detect issues, and how to design for resilience. " ++
        "Example content will be generated when this lesson is fully implemented."
      question :=
        "How would you design a production system that uses \x27" ++ topic ++ "\x27 while accounting for " ++
        "failure modes, scalability constraints, and operational observability? " ++
        "This question requires systems thinking about real-world deployment."
      task :=
        "Design and document a production-ready approach to \x27" ++ topic ++ "\x27: " ++
        "(1) Design the architecture and data flow, (2) Identify potential failure modes and mitigation strategies, " ++
        "(3) Implement a proof-of-concept or detailed design, (4) Define metrics and observability requirements. " ++
        "In future versions, you\x27ll receive structured tasks and automated grading." }

/-- `teacher.py` `Teacher.generate_lesson(topic)`.
Priority 1: seeded lesson for `topic.lower() == "tokens"` (the only key of
`_lessons`). Priority 2: the outbound generation call — `ollamaResponse`
embeds `ollama_client.generate(prompt)` (`none` on any transport failure) and
`parseLesson` embeds the code-fence stripping + `json.loads` +
`Lesson.model_validate` pipeline (`none` on invalid JSON or schema mismatch);
on success the `topic` field is overwritten with the caller's string.
Priority 3: the tiered fallback, using the Knowledge Store's weakness count
for the topic (0 when no store is attached). -/
def teacherGenerateLesson (parseLesson : String → Option Lesson)
    (ollamaResponse : Option String) (memory_repo : Option RepoState)
    (topic : String) : Lesson :=
  if lowerStr topic = "tokens" then
    seededTokensLesson
  else
    match bestEffortCall parseLesson ollamaResponse with
    | some l => { l with topic := topic }
    | none =>
        let weakness_count :=
          match memory_repo with
          | none => 0
          | some st => get_weakness_count st topic
        build_fallback_lesson topic weakness_count

/-- `orchestrator.py` `TeacherOrchestrator.grade_answer`, deterministic part:
its own inline rubric for `topic.lower()` in `("tokens", "tokenization")`,
else the placeholder grade (whose feedback interpolates the raw `topic`,
not `topic_lower`). -/
def orchGradeDet (topic answer : String) : Grade :=
  let topic_lower := lowerStr topic
  let answer_lower := lowerStr answer
  if topic_lower = "tokens" ∨ topic_lower = "tokenization" then
    let keywords := ["truncation", "context limit", "constraint", "context window", "token limit"]
    let found_keywords := keywords.filter (fun kw => strContains answer_lower kw)
    let num_found := found_keywords.length
    if num_found ≥ 2 then
      { score := 85
        feedback :=
          "Excellent! You identified multiple key concepts: " ++
          String.intercalate ", " found_keywords ++
          ". You understand that different tokenizers affect context windows and can cause truncation, " ++
          "which directly impacts prompt engineering strategies." }
    else if num_found = 1 then
      { score := 65
        feedback :=
          "Good start! You mentioned \x27" ++ found_keywords.headD "" ++
          "\x27, which is relevant. To improve, consider discussing how tokenization differences across models affect " ++
          "context window limits and can lead to truncation or constraint loss." }
    else
      { score := 35
        feedback :=
          "Your answer touches on tokenization but misses key impacts. Consider discussing: " ++
          "how different tokenizers affect context window limits, the risk of truncation " ++
          "when text exceeds limits, and how this constrains prompt engineering strategies." }
  else
    { score := 50
      feedback :=
        "Grading for \x27" ++ topic ++ "\x27 is not yet implemented. This is a placeholder grade. " ++
        "In future versions, answers will be evaluated using LLM-based grading." }

/-- `orchestrator.py` `TeacherOrchestrator.grade_answer(topic, answer)`:
computes its own deterministic grade, then — only when a Knowledge Store is
attached (`if self.memory_repo:`) — saves one Attempt (with the raw `topic`
and the `llm_feedback`/`llm_score` arguments left at their `None` defaults)
and increments the weakness counter for the raw `topic` when `score < 70`. -/
def orchestratorGradeAnswer (topic answer : String) (memory_repo : Option RepoState) :
    Grade × Option RepoState :=
  let grade := orchGradeDet topic answer
  match memory_repo with
  | none => (grade, none)
  | some st =>
      let st1 := save_attempt st topic answer grade.score grade.feedback none none
      let st2 := if grade.score < 70 then increment_weakness st1 topic else st1
      (grade, some st2)

/-- The fixed ordered curriculum: the spec's rubric/curriculum topics in
teaching order. The tests pin its first entry ("tokens"), second entry
("temperature") and last entry ("agents"). -/
def curriculum : List String :=
  ["tokens", "temperature", "prompting", "rag", "hallucinations", "agents"]

/-- Modelled from the spec: `TeacherOrchestrator.recommend_next_topic` is
invoked by the CLI and by `tests/test_orchestrator.py` but its body is absent
from the source tree. Spec §4.3: (1) if any WeaknessCounter exists return the
top weak topic (highest count, ties by ascending topic); (2) else if an
Attempt exists, locate the most recent Attempt's topic case-insensitively in
the curriculum and return the following entry, wrapping past the end;
(3) else — and also whenever the last topic is absent from the curriculum or
no Knowledge Store is attached — return the curriculum's first entry. -/
def recommend_next_topic (memory_repo : Option RepoState) : String :=
  match memory_repo with
  | none => curriculum.headD ""
  | some st =>
      match get_top_weak_topic st with
      | some t => t
      | none =>
          match get_last_attempt_topic st with
          | none => curriculum.headD ""
          | some t =>
              match curriculum.findIdx? (fun c => c == lowerStr t) with
              | some i => curriculum.getD ((i + 1) % curriculum.length) ""
              | none => curriculum.headD ""

/-- A parsed JSON value as produced by Python's `json.loads`
(JSON `null` becomes Python `None`; objects become dicts, keys unique). -/
inductive PyJson where
  | null
  | bool (b : Bool)
  | num (n : Int)
  | str (s : String)
  | arr (elems : List PyJson)
  | obj (fields : List (String × PyJson))

/-- Python `dict.get` on a JSON object's fields: the value when the key is
present, `none` otherwise. -/
def pyDictGet (fields : List (String × PyJson)) (key : String) : Option PyJson :=
  (fields.find? (fun p => p.1 == key)).map (fun p => p.2)

/-- The outcome of the single HTTP exchange inside `OllamaClient.generate`,
before the body is interpreted: a transport-level failure raised by
`urlopen` (`URLError`/`HTTPError`/`TimeoutError`), a 2xx body that is not
valid UTF-8, a UTF-8 body that is not valid JSON, or a body parsed by
`json.loads`. -/
inductive TransportOutcome where
  | failure
  | bytesNotUtf8
  | bodyNotJson
  | body (j : PyJson)

/-- A Python call that either returns normally or lets an uncaught exception
propagate to the caller. -/
inductive PyResult (α : Type) where
  | ok (val : α)
  | raise (exc : String)

/-- `ollama.py` `OllamaClient.generate`, with the body-interpretation steps
explicit. The `except` clause catches only `URLError`, `HTTPError`,
`TimeoutError`, `JSONDecodeError` and `KeyError`, so: a non-UTF-8 body
raises `UnicodeDecodeError` at `.decode("utf-8")` and a JSON body that is
not an object raises `AttributeError` at `response_data.get("response")` —
both propagate to the caller. On an object body, `.get("response")` yields
the field's value, or Python `None` for a missing key or a JSON `null`. -/
def ollamaGenerate (outcome : TransportOutcome) : PyResult (Option PyJson) :=
  match outcome with
  | TransportOutcome.failure => PyResult.ok none
  | TransportOutcome.bytesNotUtf8 => PyResult.raise "UnicodeDecodeError"
  | TransportOutcome.bodyNotJson => PyResult.ok none
  | TransportOutcome.body j =>
      match j with
      | PyJson.obj fields =>
          match pyDictGet fields "response" with
          | none => PyResult.ok none
          | some PyJson.null => PyResult.ok none
          | some v => PyResult.ok (some v)
      | _ => PyResult.raise "AttributeError"

/-- `examiner.py` `Examiner.grade_answer` over the explicit transport model.
The deterministic grade is computed first. An exception escaping
`ollama_client.generate` propagates out of `grade_answer` (the call is
outside any `try`). When `generate` returns a non-`None` value that is not a
string, `ollama_response.strip()` raises `AttributeError`, which the
surrounding `except (JSONDecodeError, ValidationError, KeyError)` does not
catch — it propagates too. A string response is fed to the
code-fence-stripping + `json.loads` + `model_validate` pipeline `parseLlm`,
whose failures are caught and yield `none`. -/
def examinerGradeAnswerPy (parseLlm : String → Option LlmGrade)
    (outcome : TransportOutcome) (topic answer : String) :
    PyResult (Grade × Option LlmGrade) :=
  let grade := examinerDetGrade topic answer
  match ollamaGenerate outcome with
  | PyResult.raise e => PyResult.raise e
  | PyResult.ok none => PyResult.ok (grade, none)
  | PyResult.ok (some (PyJson.str s)) => PyResult.ok (grade, parseLlm s)
  | PyResult.ok (some _) => PyResult.raise "AttributeError"

/-! ### Helper lemmas about substring containment -/

theorem leadsWith_append (n l₁ l₂ : List Char) (h : leadsWith n l₁ = true) :
    leadsWith n (l₁ ++ l₂) = true := by
  induction n generalizing l₁ with
  | nil => rfl
  | cons x xs ih =>
      cases l₁ with
      | nil => simp [leadsWith] at h
      | cons a as =>
          simp only [leadsWith, Bool.and_eq_true] at h ⊢
          exact ⟨h.1, ih as h.2⟩

theorem containsSub_append_left (l₁ l₂ n : List Char) (h : containsSub l₁ n = true) :
    containsSub (l₁ ++ l₂) n = true := by
  induction l₁ with
  | nil =>
      simp only [containsSub, List.isEmpty_iff] at h
      subst h
      cases l₂ with
      | nil => rfl
      | cons b bs => simp [containsSub, leadsWith]
  | cons a t ih =>
      simp only [containsSub, Bool.or_eq_true] at h ⊢
      rcases h with h | h
      · exact Or.inl (leadsWith_append n (a :: t) l₂ h)
      · exact Or.inr (ih h)

theorem containsSub_append_right (l₁ l₂ n : List Char) (h : containsSub l₂ n = true) :
    containsSub (l₁ ++ l₂) n = true := by
  induction l₁ with
  | nil => simpa using h
  | cons a t ih =>
      simp only [List.cons_append, containsSub, Bool.or_eq_true]
      exact Or.inr ih

theorem strContains_append_left (a b n : String) (h : strContains a n = true) :
    strContains (a ++ b) n = true :=
  containsSub_append_left a.data b.data n.data h

theorem strContains_append_right (a b n : String) (h : strContains b n = true) :
    strContains (a ++ b) n = true :=
  containsSub_append_right a.data b.data n.data h

theorem unknownFeedback_has_marker (t : String) :
    strContains (unknownTopicFeedback t) "not yet implemented" = true := by
  unfold unknownTopicFeedback
  apply strContains_append_left
  apply strContains_append_right
  decide

/-! ### Helper lemmas about the Knowledge Store operations -/

theorem save_attempt_weaknesses (st : RepoState) (topic answer : String) (score : Nat)
    (feedback : String) (lf : Option String) (ls : Option Nat) :
    (save_attempt st topic answer score feedback lf ls).weaknesses = st.weaknesses := rfl

theorem save_attempt_topics (st : RepoState) (topic answer : String) (score : Nat)
    (feedback : String) (lf : Option String) (ls : Option Nat) :
    (save_attempt st topic answer score feedback lf ls).attempts.map (fun a => a.topic) =
      st.attempts.map (fun a => a.topic) ++ [topic] := by
  simp [save_attempt]

theorem increment_weakness_attempts (st : RepoState) (topic : String) :
    (increment_weakness st topic).attempts = st.attempts := by
  unfold increment_weakness
  cases weaknessRow st.weaknesses topic <;> rfl

theorem bumpRow_fst (topic : String) (p : String × Nat) :
    (bumpRow topic p).1 = p.1 := by
  unfold bumpRow; split <;> rfl

theorem bumpRow_snd (topic : String) (p : String × Nat) :
    (bumpRow topic p).2 = if p.1 == topic then p.2 + 1 else p.2 := by
  unfold bumpRow; split <;> simp_all

theorem weaknessRow_cons (a : String × Nat) (w : List (String × Nat)) (t : String) :
    weaknessRow (a :: w) t = if a.1 == t then some a.2 else weaknessRow w t := by
  unfold weaknessRow
  by_cases h : a.1 = t
  · rw [List.find?_cons_of_pos _ (by simpa using h)]
    simp [h]
  · rw [List.find?_cons_of_neg _ (by simpa using h)]
    simp [h]

theorem weaknessRow_map_bump (w : List (String × Nat)) (topic t : String) :
    weaknessRow (w.map (bumpRow topic)) t =
      (weaknessRow w t).map (fun c => if t == topic then c + 1 else c) := by
  induction w with
  | nil => rfl
  | cons a w ih =>
      rw [List.map_cons, weaknessRow_cons, weaknessRow_cons, bumpRow_fst]
      by_cases ht : a.1 = t
      · have hbt : (a.1 == t) = true := by simpa using ht
        rw [hbt]
        simp only [if_true, bumpRow_snd, Option.map_some]
        subst ht
        rfl
      · have hbt : (a.1 == t) = false := by simpa using ht
        rw [hbt]
        simpa using ih

theorem weaknessRow_append_single (w : List (String × Nat)) (topic t : String) (c : Nat) :
    weaknessRow (w ++ [(topic, c)]) t =
      match weaknessRow w t with
      | some x => some x
      | none => if topic == t then some c else none := by
  induction w with
  | nil =>
      rw [List.nil_append, weaknessRow_cons]
      rfl
  | cons a w ih =>
      rw [List.cons_append, weaknessRow_cons, weaknessRow_cons]
      by_cases h : a.1 = t
      · have hb : (a.1 == t) = true := by simpa using h
        rw [hb]
        simp
      · have hb : (a.1 == t) = false := by simpa using h
        rw [hb]
        simpa using ih

theorem get_weakness_count_increment_self (st : RepoState) (topic : String) :
    get_weakness_count (increment_weakness st topic) topic =
      get_weakness_count st topic + 1 := by
  unfold increment_weakness
  cases h : weaknessRow st.weaknesses topic with
  | none =>
      show (weaknessRow (st.weaknesses ++ [(topic, 1)]) topic).getD 0 = _
      rw [weaknessRow_append_single, h]
      simp [get_weakness_count, h]
  | some c =>
      show (weaknessRow (st.weaknesses.map (bumpRow topic)) topic).getD 0 = _
      rw [weaknessRow_map_bump, h]
      simp [get_weakness_count, h]

theorem get_weakness_count_increment_other (st : RepoState) (topic t : String)
    (hne : t ≠ topic) :
    get_weakness_count (increment_weakness st topic) t = get_weakness_count st t := by
  have hb : (t == topic) = false := by simpa using hne
  have hb' : (topic == t) = false := by simpa using (Ne.symm hne)
  unfold increment_weakness
  cases h : weaknessRow st.weaknesses topic with
  | none =>
      show (weaknessRow (st.weaknesses ++ [(topic, 1)]) t).getD 0 = _
      rw [weaknessRow_append_single, hb']
      unfold get_weakness_count
      cases weaknessRow st.weaknesses t <;> rfl
  | some c =>
      show (weaknessRow (st.weaknesses.map (bumpRow topic)) t).getD 0 = _
      rw [weaknessRow_map_bump, hb]
      unfold get_weakness_count
      cases weaknessRow st.weaknesses t <;> rfl

theorem mem_increment_weakness (st : RepoState) (topic t : String) (c : Nat)
    (h : (t, c) ∈ st.weaknesses) :
    ∃ c', c ≤ c' ∧ (t, c') ∈ (increment_weakness st topic).weaknesses := by
  unfold increment_weakness
  cases weaknessRow st.weaknesses topic with
  | none =>
      exact ⟨c, Nat.le_refl c, List.mem_append_left _ h⟩
  | some x =>
      have hmem := List.mem_map_of_mem (bumpRow topic) h
      by_cases ht : t = topic
      · refine ⟨c + 1, Nat.le_succ c, ?_⟩
        have hval : bumpRow topic (t, c) = (t, c + 1) := by
          unfold bumpRow; simp [ht]
        rwa [hval] at hmem
      · refine ⟨c, Nat.le_refl c, ?_⟩
        have hval : bumpRow topic (t, c) = (t, c) := by
          unfold bumpRow
          simp [show ((t, c).1 == topic) = false from by simpa using ht]
        rwa [hval] at hmem

theorem map_fst_bump (w : List (String × Nat)) (topic : String) :
    (w.map (bumpRow topic)).map (fun p => p.1) = w.map (fun p => p.1) := by
  induction w with
  | nil => rfl
  | cons a t ih => simp [bumpRow_fst, ih]

/-! ### Claim theorems -/

/-- C7: for every topic, if the answer is empty or whitespace-only, the
Grader's `grade_answer` returns the fixed grade with score 10 (which lies in
[0, 19] — scores are naturals, so 0 ≤ score holds by type) and feedback
stating the answer is empty, skipping keyword scoring entirely (the result is
one fixed record, independent of the topic and of any rubric). -/
theorem C7_empty_answer_low_score (topic answer : String)
    (parseLlm : String → Option LlmGrade) (resp : Option String)
    (h : isBlankStr answer = true) :
    (examinerGradeAnswer parseLlm resp topic answer).1 =
      { score := 10, feedback := emptyAnswerFeedback } ∧
    (examinerGradeAnswer parseLlm resp topic answer).1.score ≤ 19 ∧
    strContains emptyAnswerFeedback "empty" = true := by
  have h1 : (examinerGradeAnswer parseLlm resp topic answer).1 =
      { score := 10, feedback := emptyAnswerFeedback } := by
    show examinerDetGrade topic answer = _
    unfold examinerDetGrade
    rw [h]
    simp
  exact ⟨h1, by rw [h1]; decide, by decide⟩

/-- Witness for C7 at topic "rag" and the whitespace answer `" \t "`. -/
theorem C7_empty_answer_low_score_witness :
    isBlankStr " \t " = true ∧
    ((examinerGradeAnswer (fun _ => none) none "rag" " \t ").1 =
        { score := 10, feedback := emptyAnswerFeedback } ∧
      (examinerGradeAnswer (fun _ => none) none "rag" " \t ").1.score ≤ 19 ∧
      strContains emptyAnswerFeedback "empty" = true) :=
  ⟨by decide, C7_empty_answer_low_score "rag" " \t " (fun _ => none) none (by decide)⟩

/-- C9: the claim's "a failed or malformed call ... never raises to the
caller" is false of the code. With the HTTP body interpretation made
explicit: a valid-JSON non-object body (here the array `[1, 2, 3]`) raises
`AttributeError` at `response_data.get("response")`; a non-string `response`
value (here `42`) escapes `generate` and crashes `ollama_response.strip()`
inside `grade_answer` with an uncaught `AttributeError`; a non-UTF-8 body
raises `UnicodeDecodeError` — each propagates to `grade_answer`'s caller, so
no Grade is returned at all, contradicting `generate`'s own docstring
("Returns the response text on success, None on any error") and the spec's
error taxonomy. On the outcomes the code does absorb (transport failure,
invalid JSON) and on string responses, the deterministic Grade is returned
unchanged and a parse failure only leaves the augmented result absent. -/
theorem C9_malformed_payload_raises (topic answer : String)
    (parseLlm : String → Option LlmGrade) :
    ollamaGenerate (TransportOutcome.body (PyJson.arr [PyJson.num 1, PyJson.num 2, PyJson.num 3])) =
      PyResult.raise "AttributeError" ∧
    examinerGradeAnswerPy parseLlm
        (TransportOutcome.body (PyJson.obj [("response", PyJson.num 42)])) topic answer =
      PyResult.raise "AttributeError" ∧
    examinerGradeAnswerPy parseLlm TransportOutcome.bytesNotUtf8 topic answer =
      PyResult.raise "UnicodeDecodeError" ∧
    examinerGradeAnswerPy parseLlm TransportOutcome.failure topic answer =
      PyResult.ok (examinerDetGrade topic answer, none) ∧
    examinerGradeAnswerPy parseLlm TransportOutcome.bodyNotJson topic answer =
      PyResult.ok (examinerDetGrade topic answer, none) ∧
    (∀ s, examinerGradeAnswerPy parseLlm
        (TransportOutcome.body (PyJson.obj [("response", PyJson.str s)])) topic answer =
      PyResult.ok (examinerDetGrade topic answer, parseLlm s)) :=
  ⟨rfl, rfl, rfl, rfl, rfl, fun _ => rfl⟩

/-- C10: the Coordinator's `grade_answer` with no Knowledge Store attached
returns exactly the Grade it returns with any store attached, and performs no
persistence (there is no resulting store state: the second component stays
`none`, so no Attempt is saved and no WeaknessCounter is touched). -/
theorem C10_no_store_same_grade_no_writes (topic answer : String) (st : RepoState) :
    (orchestratorGradeAnswer topic answer none).1 =
      (orchestratorGradeAnswer topic answer (some st)).1 ∧
    (orchestratorGradeAnswer topic answer none).2 = none :=
  ⟨rfl, rfl⟩

/-- C2: the Coordinator's `grade_answer` does NOT return the Grader's grade.
At topic "temperature" with an answer matching several rubric keywords the
Grader's deterministic grade is 85, but the Coordinator — which inlines its
own rubric for tokens/tokenization only — returns the placeholder score 50;
moreover the Attempt it persists always carries `none` augmented fields
(its `save_attempt` call leaves `llm_feedback`/`llm_score` at their `None`
defaults), never the Grader's augmented result. -/
theorem C2_coordinator_bypasses_grader :
    (orchestratorGradeAnswer "temperature" "temperature sampling randomness"
        (some ⟨[], []⟩)).1.score = 50 ∧
    (examinerGradeAnswer (fun _ => none) none "temperature"
        "temperature sampling randomness").1.score = 85 ∧
    (((orchestratorGradeAnswer "temperature" "temperature sampling randomness"
          (some ⟨[], []⟩)).2).map
        (fun s => s.attempts.map (fun a => (a.llm_feedback, a.llm_score)))) =
      some [(none, none)] :=
  ⟨by decide, by decide, by decide⟩

/-- C8 counterexample: "math" has no keyword rubric, yet the Grader's
`grade_answer` on the empty answer returns score 10, not 50 — the claim's
"every answer" fails on empty/whitespace-only answers, which short-circuit
before the unknown-topic branch. -/
theorem C8_counterexample_empty_answer :
    topicKeywords (lowerStr "math") = none ∧
    (examinerGradeAnswer (fun _ => none) none "math" "").1.score = 10 ∧
    ¬ (examinerGradeAnswer (fun _ => none) none "math" "").1.score = 50 :=
  ⟨by decide, by decide, by decide⟩

/-- C8 (amended): for every topic without a keyword rubric and every
non-empty, non-whitespace answer, the Grader's `grade_answer` returns score
exactly 50 with the fixed "not yet implemented" placeholder feedback,
independent of the answer's content (the grade equals a record that does not
mention the answer). -/
theorem C8_unknown_topic_neutral (topic answer : String)
    (parseLlm : String → Option LlmGrade) (resp : Option String)
    (hrub : topicKeywords (lowerStr topic) = none)
    (hne : isBlankStr answer = false) :
    (examinerGradeAnswer parseLlm resp topic answer).1 =
      { score := 50, feedback := unknownTopicFeedback (lowerStr topic) } ∧
    strContains (unknownTopicFeedback (lowerStr topic)) "not yet implemented" = true := by
  refine ⟨?_, unknownFeedback_has_marker (lowerStr topic)⟩
  show examinerDetGrade topic answer = _
  unfold examinerDetGrade
  rw [hne]
  unfold grade_deterministic
  rw [hrub]
  rfl

/-- Witness for C8 (amended) at topic "math", answer "Some generic answer". -/
theorem C8_unknown_topic_neutral_witness :
    topicKeywords (lowerStr "math") = none ∧
    isBlankStr "Some generic answer" = false ∧
    ((examinerGradeAnswer (fun _ => none) none "math" "Some generic answer").1 =
        { score := 50, feedback := unknownTopicFeedback (lowerStr "math") } ∧
      strContains (unknownTopicFeedback (lowerStr "math")) "not yet implemented" = true) :=
  ⟨by decide, by decide,
    C8_unknown_topic_neutral "math" "Some generic answer" (fun _ => none) none
      (by decide) (by decide)⟩

/-- C5 counterexample: persistence does NOT lowercase the topic key. Starting
from an empty store, grading topic "Tokens" then topic "tokens" (both with a
low-scoring answer) leaves two distinct WeaknessCounter rows, each with count
1 — not one shared row with count 2 — and the Attempt persisted for "Tokens"
is stored under "Tokens", not "tokens". -/
theorem C5_counterexample_mixed_case :
    (((orchestratorGradeAnswer "tokens" "i do not know"
          ((orchestratorGradeAnswer "Tokens" "i do not know" (some ⟨[], []⟩)).2)).2).map
        (fun s => s.weaknesses)) = some [("Tokens", 1), ("tokens", 1)] ∧
    (((orchestratorGradeAnswer "Tokens" "i do not know" (some ⟨[], []⟩)).2).map
        (fun s => s.attempts.map (fun a => a.topic))) = some ["Tokens"] :=
  ⟨by decide, by decide⟩

/-- C5 (amended): grading-rubric and seeded-lesson lookups lowercase the
topic, but persistence keys do not: the Coordinator's `grade_answer` saves
the Attempt under the caller's raw topic string and creates/updates the
WeaknessCounter row under the raw topic string, so "Tokens" and "tokens"
denote distinct records. -/
theorem C5_raw_topic_persistence (topic answer : String) (st : RepoState) :
    ∃ st', (orchestratorGradeAnswer topic answer (some st)).2 = some st' ∧
      st'.attempts.map (fun a => a.topic) = st.attempts.map (fun a => a.topic) ++ [topic] ∧
      st'.weaknesses.map (fun p => p.1) =
        (if (orchGradeDet topic answer).score < 70 ∧ weaknessRow st.weaknesses topic = none
          then st.weaknesses.map (fun p => p.1) ++ [topic]
          else st.weaknesses.map (fun p => p.1)) := by
  refine ⟨_, rfl, ?_, ?_⟩
  · by_cases h : (orchGradeDet topic answer).score < 70
    · rw [if_pos h, increment_weakness_attempts, save_attempt_topics]
    · rw [if_neg h, save_attempt_topics]
  · by_cases h : (orchGradeDet topic answer).score < 70
    · rw [if_pos h]
      show (increment_weakness _ topic).weaknesses.map (fun p => p.1) = _
      unfold increment_weakness
      rw [save_attempt_weaknesses]
      cases hr : weaknessRow st.weaknesses topic with
      | none =>
          rw [if_pos ⟨h, rfl⟩]
          simp
      | some c =>
          rw [map_fst_bump, if_neg (by simp [hr])]
    · rw [if_neg h, if_neg (by tauto), save_attempt_weaknesses]

/-- Witness for C5 (amended): grading "Tokens" on the empty store persists
the attempt and the weakness row under the raw key "Tokens". -/
theorem C5_raw_topic_persistence_witness :
    ∃ st', (orchestratorGradeAnswer "Tokens" "i do not know" (some ⟨[], []⟩)).2 = some st' ∧
      st'.attempts.map (fun a => a.topic) =
        ([] : List Attempt).map (fun a => a.topic) ++ ["Tokens"] ∧
      st'.weaknesses.map (fun p => p.1) =
        (if (orchGradeDet "Tokens" "i do not know").score < 70 ∧
            weaknessRow ([] : List (String × Nat)) "Tokens" = none
          then ([] : List (String × Nat)).map (fun p => p.1) ++ ["Tokens"]
          else ([] : List (String × Nat)).map (fun p => p.1)) :=
  C5_raw_topic_persistence "Tokens" "i do not know" ⟨[], []⟩

/-- C4: the Coordinator's `grade_answer` increments the WeaknessCounter of
the graded topic exactly when the deterministic score is below 70 (by 1, and
other topics' counters are untouched, so counts never decrease and rows are
never deleted); concretely, grading "tokens" with an 85-scoring answer and
then a 35-scoring answer leaves the counter at 1, not 2. -/
theorem C4_weakness_increment_iff_low_score (topic answer : String) (st : RepoState) :
    ∃ st', (orchestratorGradeAnswer topic answer (some st)).2 = some st' ∧
      get_weakness_count st' topic =
        get_weakness_count st topic +
          (if (orchestratorGradeAnswer topic answer (some st)).1.score < 70 then 1 else 0) ∧
      (∀ t, get_weakness_count st t ≤ get_weakness_count st' t) ∧
      (∀ t c, (t, c) ∈ st.weaknesses → ∃ c', c ≤ c' ∧ (t, c') ∈ st'.weaknesses) ∧
      (orchestratorGradeAnswer "tokens" "truncation at the context window limit"
          (some ⟨[], []⟩)).1.score = 85 ∧
      (orchestratorGradeAnswer "tokens" "i do not know"
          ((orchestratorGradeAnswer "tokens" "truncation at the context window limit"
            (some ⟨[], []⟩)).2)).1.score = 35 ∧
      (((orchestratorGradeAnswer "tokens" "i do not know"
            ((orchestratorGradeAnswer "tokens" "truncation at the context window limit"
              (some ⟨[], []⟩)).2)).2).map
          (fun s => get_weakness_count s "tokens")) = some 1 := by
  have hsave : (save_attempt st topic answer (orchGradeDet topic answer).score
      (orchGradeDet topic answer).feedback none none).weaknesses = st.weaknesses :=
    save_attempt_weaknesses ..
  have hcount : ∀ t, get_weakness_count
      (save_attempt st topic answer (orchGradeDet topic answer).score
        (orchGradeDet topic answer).feedback none none) t = get_weakness_count st t := by
    intro t
    unfold get_weakness_count
    rw [hsave]
  refine ⟨_, rfl, ?_, ?_, ?_, by decide, by decide, by decide⟩
  · show get_weakness_count
        (if (orchGradeDet topic answer).score < 70 then increment_weakness _ topic else _)
        topic = _
    by_cases h : (orchGradeDet topic answer).score < 70
    · rw [if_pos h, get_weakness_count_increment_self, hcount,
        if_pos (show (orchestratorGradeAnswer topic answer (some st)).1.score < 70 from h)]
    · rw [if_neg h, hcount,
        if_neg (show ¬ (orchestratorGradeAnswer topic answer (some st)).1.score < 70 from h)]
      rfl
  · intro t
    show get_weakness_count st t ≤ get_weakness_count
        (if (orchGradeDet topic answer).score < 70 then increment_weakness _ topic else _) t
    by_cases h : (orchGradeDet topic answer).score < 70
    · rw [if_pos h]
      by_cases ht : t = topic
      · subst ht
        rw [get_weakness_count_increment_self, hcount]
        exact Nat.le_succ _
      · rw [get_weakness_count_increment_other _ _ _ ht, hcount]
    · rw [if_neg h, hcount]
  · intro t c hmem
    show ∃ c', c ≤ c' ∧ (t, c') ∈
        ((if (orchGradeDet topic answer).score < 70
          then increment_weakness _ topic else _) : RepoState).weaknesses
    by_cases h : (orchGradeDet topic answer).score < 70
    · rw [if_pos h]
      exact mem_increment_weakness _ topic t c (by rwa [hsave])
    · rw [if_neg h, hsave]
      exact ⟨c, Nat.le_refl c, hmem⟩

/-- Witness for C4 at topic "tokens" on the empty store. -/
theorem C4_weakness_increment_iff_low_score_witness :
    ∃ st', (orchestratorGradeAnswer "tokens" "i do not know" (some ⟨[], []⟩)).2 = some st' ∧
      get_weakness_count st' "tokens" =
        get_weakness_count ⟨[], []⟩ "tokens" +
          (if (orchestratorGradeAnswer "tokens" "i do not know"
              (some ⟨[], []⟩)).1.score < 70 then 1 else 0) ∧
      (∀ t, get_weakness_count ⟨[], []⟩ t ≤ get_weakness_count st' t) ∧
      (∀ t c, (t, c) ∈ (⟨[], []⟩ : RepoState).weaknesses →
        ∃ c', c ≤ c' ∧ (t, c') ∈ st'.weaknesses) ∧
      (orchestratorGradeAnswer "tokens" "truncation at the context window limit"
          (some ⟨[], []⟩)).1.score = 85 ∧
      (orchestratorGradeAnswer "tokens" "i do not know"
          ((orchestratorGradeAnswer "tokens" "truncation at the context window limit"
            (some ⟨[], []⟩)).2)).1.score = 35 ∧
      (((orchestratorGradeAnswer "tokens" "i do not know"
            ((orchestratorGradeAnswer "tokens" "truncation at the context window limit"
              (some ⟨[], []⟩)).2)).2).map
          (fun s => get_weakness_count s "tokens")) = some 1 :=
  C4_weakness_increment_iff_low_score "tokens" "i do not know" ⟨[], []⟩

theorem grade_deterministic_score (tl al : String) (kws : List String)
    (hrub : topicKeywords tl = some kws) :
    (grade_deterministic tl al).score =
      (if 2 ≤ (kws.filter (fun kw => strContains al kw)).length then 85
       else if (kws.filter (fun kw => strContains al kw)).length = 1 then 65
       else 35) := by
  unfold grade_deterministic
  rw [hrub]
  simp only []
  split_ifs with h1 h2 <;> rfl

/-- C1: for every topic with a keyword rubric (tokens, tokenization,
temperature, prompting, rag, hallucinations, agents — exactly the domains of
`topicKeywords`) and every non-empty, non-whitespace answer, the Grader's
`grade_answer` returns deterministic score exactly 85 when at least 2 rubric
keyword phrases occur as substrings of the lowercased answer, exactly 65 when
exactly 1 occurs, and exactly 35 when none occurs. -/
theorem C1_rubric_scoring_bands (topic answer : String) (kws : List String)
    (parseLlm : String → Option LlmGrade) (resp : Option String)
    (hrub : topicKeywords (lowerStr topic) = some kws)
    (hne : isBlankStr answer = false) :
    (examinerGradeAnswer parseLlm resp topic answer).1.score =
      (if 2 ≤ (kws.filter (fun kw => strContains (lowerStr answer) kw)).length then 85
       else if (kws.filter (fun kw => strContains (lowerStr answer) kw)).length = 1 then 65
       else 35) := by
  show (examinerDetGrade topic answer).score = _
  unfold examinerDetGrade
  rw [hne]
  simp only [Bool.false_eq_true, if_false]
  exact grade_deterministic_score (lowerStr topic) (lowerStr answer) kws hrub

/-- Witness for C1: the spec's own example — topic "rag", answer
"embeddings in a vector store retrieve chunks" (3 rubric matches ⇒ 85). -/
theorem C1_rubric_scoring_bands_witness :
    topicKeywords (lowerStr "rag") =
      some ["retrieval", "embeddings", "vector database", "vector store", "context injection",
            "chunks", "chunking", "citation", "grounding"] ∧
    isBlankStr "embeddings in a vector store retrieve chunks" = false ∧
    (examinerGradeAnswer (fun _ => none) none "rag"
        "embeddings in a vector store retrieve chunks").1.score =
      (if 2 ≤ ((["retrieval", "embeddings", "vector database", "vector store",
            "context injection", "chunks", "chunking", "citation", "grounding"].filter
          (fun kw => strContains (lowerStr "embeddings in a vector store retrieve chunks") kw)).length)
        then 85
       else if ((["retrieval", "embeddings", "vector database", "vector store",
            "context injection", "chunks", "chunking", "citation", "grounding"].filter
          (fun kw => strContains (lowerStr "embeddings in a vector store retrieve chunks") kw)).length) = 1
        then 65
       else 35) :=
  ⟨by decide, by decide,
    C1_rubric_scoring_bands "rag" "embeddings in a vector store retrieve chunks"
      ["retrieval", "embeddings", "vector database", "vector store", "context injection",
       "chunks", "chunking", "citation", "grounding"]
      (fun _ => none) none (by decide) (by decide)⟩

theorem beginnerExplanation_shift (t : String) :
    (beginnerExplanation t).length = (beginnerExplanation "").length + 2 * t.length := by
  have h0 : ("" : String).length = 0 := rfl
  simp only [beginnerExplanation, String.length_append]
  omega

theorem intermediateExplanation_shift (t : String) :
    (intermediateExplanation t).length = (intermediateExplanation "").length + 2 * t.length := by
  have h0 : ("" : String).length = 0 := rfl
  simp only [intermediateExplanation, String.length_append]
  omega

theorem advancedExplanation_shift (t : String) :
    (advancedExplanation t).length = (advancedExplanation "").length + 2 * t.length := by
  have h0 : ("" : String).length = 0 := rfl
  simp only [advancedExplanation, String.length_append]
  omega

theorem tier_explanation_lengths (t : String) :
    (beginnerExplanation t).length < (intermediateExplanation t).length ∧
    (intermediateExplanation t).length < (advancedExplanation t).length := by
  have hb := beginnerExplanation_shift t
  have hi := intermediateExplanation_shift t
  have ha := advancedExplanation_shift t
  have c1 : (beginnerExplanation "").length < (intermediateExplanation "").length := by decide
  have c2 : (intermediateExplanation "").length < (advancedExplanation "").length := by decide
  omega

/-- C6: when the outbound generation call yields no usable lesson (transport
failure or unparseable/ill-shaped payload, i.e. the best-effort call yields
`none`), `generate_lesson` for a non-seeded topic returns the tiered
placeholder lesson for the topic's current weakness count (0 without a store);
and for any fixed topic the Beginner-tier explanation (count 0 or 1) is
strictly shorter than the Intermediate-tier one (count 2 or 3), which is
strictly shorter than the Advanced-tier one (count ≥ 4). -/
theorem C6_fallback_lesson_tiering (parseLesson : String → Option Lesson)
    (resp : Option String) (repo : Option RepoState) (topic : String)
    (w1 w2 w3 : Nat)
    (hseed : lowerStr topic ≠ "tokens")
    (hfail : bestEffortCall parseLesson resp = none)
    (h1 : w1 ≤ 1) (h2 : w2 = 2 ∨ w2 = 3) (h3 : 4 ≤ w3) :
    teacherGenerateLesson parseLesson resp repo topic =
      build_fallback_lesson topic ((repo.map (fun st => get_weakness_count st topic)).getD 0) ∧
    (build_fallback_lesson topic w1).explanation = beginnerExplanation topic ∧
    (build_fallback_lesson topic w2).explanation = intermediateExplanation topic ∧
    (build_fallback_lesson topic w3).explanation = advancedExplanation topic ∧
    (beginnerExplanation topic).length < (intermediateExplanation topic).length ∧
    (intermediateExplanation topic).length < (advancedExplanation topic).length := by
  refine ⟨?_, ?_, ?_, ?_, (tier_explanation_lengths topic).1, (tier_explanation_lengths topic).2⟩
  · unfold teacherGenerateLesson
    rw [if_neg hseed, hfail]
    cases repo <;> rfl
  · unfold build_fallback_lesson
    rw [if_pos h1]
  · unfold build_fallback_lesson
    rw [if_neg (by rcases h2 with h | h <;> omega), if_pos h2]
  · unfold build_fallback_lesson
    rw [if_neg (by omega), if_neg (by rintro (h | h) <;> omega)]

/-- Witness for C6 at the non-seeded topic "quantum" with no store, a failed
call, and tier counts 0 / 2 / 4. -/
theorem C6_fallback_lesson_tiering_witness :
    lowerStr "quantum" ≠ "tokens" ∧
    bestEffortCall (fun _ => (none : Option Lesson)) none = none ∧
    (teacherGenerateLesson (fun _ => none) none none "quantum" =
        build_fallback_lesson "quantum"
          (((none : Option RepoState).map (fun st => get_weakness_count st "quantum")).getD 0) ∧
      (build_fallback_lesson "quantum" 0).explanation = beginnerExplanation "quantum" ∧
      (build_fallback_lesson "quantum" 2).explanation = intermediateExplanation "quantum" ∧
      (build_fallback_lesson "quantum" 4).explanation = advancedExplanation "quantum" ∧
      (beginnerExplanation "quantum").length < (intermediateExplanation "quantum").length ∧
      (intermediateExplanation "quantum").length < (advancedExplanation "quantum").length) :=
  ⟨by decide, rfl,
    C6_fallback_lesson_tiering (fun _ => none) none none "quantum" 0 2 4
      (by decide) rfl (by decide) (Or.inl rfl) (by decide)⟩

/-! ### Order theory for the weakness-row selection (`ORDER BY count DESC, topic ASC`) -/

theorem charListLtB_irrefl : ∀ l : List Char, charListLtB l l = false := by
  intro l
  induction l with
  | nil => rfl
  | cons x xs ih =>
      simp only [charListLtB, Bool.or_eq_false_iff, Bool.and_eq_false_iff]
      exact ⟨by simp, Or.inr ih⟩

theorem charListLtB_asymm : ∀ a b : List Char,
    charListLtB a b = true → charListLtB b a = false := by
  intro a
  induction a with
  | nil =>
      intro b _
      cases b with
      | nil => rfl
      | cons y ys => rfl
  | cons x xs ih =>
      intro b h
      cases b with
      | nil => simp [charListLtB] at h
      | cons y ys =>
          simp only [charListLtB, Bool.or_eq_true, Bool.and_eq_true, beq_iff_eq,
            decide_eq_true_eq] at h
          simp only [charListLtB, Bool.or_eq_false_iff, Bool.and_eq_false_iff,
            decide_eq_false_iff_not, beq_eq_false_iff_ne]
          rcases h with h | ⟨he, hr⟩
          · exact ⟨by omega, Or.inl (by omega)⟩
          · exact ⟨by omega, Or.inr (ih ys hr)⟩

theorem charListLtB_cotrans : ∀ a b c : List Char,
    charListLtB a c = true → charListLtB a b = true ∨ charListLtB b c = true := by
  intro a
  induction a with
  | nil =>
      intro b c h
      cases c with
      | nil => simp [charListLtB] at h
      | cons y ys =>
          cases b with
          | nil => exact Or.inr rfl
          | cons z zs => exact Or.inl rfl
  | cons x xs ih =>
      intro b c h
      cases c with
      | nil => simp [charListLtB] at h
      | cons y ys =>
          cases b with
          | nil => exact Or.inr rfl
          | cons z zs =>
              simp only [charListLtB, Bool.or_eq_true, Bool.and_eq_true, beq_iff_eq,
                decide_eq_true_eq] at h ⊢
              rcases h with h | ⟨he, hr⟩
              · by_cases hz : x.toNat < z.toNat
                · exact Or.inl (Or.inl hz)
                · exact Or.inr (Or.inl (by omega))
              · by_cases hz1 : x.toNat < z.toNat
                · exact Or.inl (Or.inl hz1)
                · by_cases hz2 : z.toNat < y.toNat
                  · exact Or.inr (Or.inl hz2)
                  · have hxz : x.toNat = z.toNat := by omega
                    have hzy : z.toNat = y.toNat := by omega
                    rcases ih zs ys hr with h' | h'
                    · exact Or.inl (Or.inr ⟨hxz, h'⟩)
                    · exact Or.inr (Or.inr ⟨hzy, h'⟩)

theorem precB_irrefl (p : String × Nat) : precB p p = false := by
  simp only [precB, Bool.or_eq_false_iff, Bool.and_eq_false_iff]
  exact ⟨by simp, Or.inr (charListLtB_irrefl p.1.data)⟩

theorem precB_asymm (p q : String × Nat) (h : precB p q = true) : precB q p = false := by
  simp only [precB, Bool.or_eq_true, Bool.and_eq_true, beq_iff_eq, decide_eq_true_eq] at h
  simp only [precB, Bool.or_eq_false_iff, Bool.and_eq_false_iff, decide_eq_false_iff_not,
    beq_eq_false_iff_ne, strLtB]
  rcases h with h | ⟨he, hs⟩
  · exact ⟨by omega, Or.inl (by omega)⟩
  · exact ⟨by omega, Or.inr (charListLtB_asymm _ _ hs)⟩

theorem precB_cotrans (p b x : String × Nat) (h : precB p b = true) :
    precB p x = true ∨ precB x b = true := by
  simp only [precB, Bool.or_eq_true, Bool.and_eq_true, beq_iff_eq, decide_eq_true_eq,
    strLtB] at h ⊢
  rcases h with h | ⟨he, hs⟩
  · by_cases hx : x.2 < p.2
    · exact Or.inl (Or.inl hx)
    · exact Or.inr (Or.inl (by omega))
  · by_cases hx1 : x.2 < p.2
    · exact Or.inl (Or.inl hx1)
    · by_cases hx2 : b.2 < x.2
      · exact Or.inr (Or.inl hx2)
      · have h1 : x.2 = p.2 := by omega
        have h2 : b.2 = x.2 := by omega
        rcases charListLtB_cotrans p.1.data x.1.data b.1.data hs with h' | h'
        · exact Or.inl (Or.inr ⟨h1, h'⟩)
        · exact Or.inr (Or.inr ⟨h2, h'⟩)

theorem precB_no_trans (d k b : String × Nat) (h1 : precB d k = false)
    (h2 : precB k b = false) : precB d b = false := by
  by_contra h
  rw [Bool.not_eq_false] at h
  rcases precB_cotrans d b k h with h' | h'
  · rw [h1] at h'; exact Bool.false_ne_true h'
  · rw [h2] at h'; exact Bool.false_ne_true h'

theorem pickBetter_cases (x p : String × Nat) :
    pickBetter x p = p ∨ pickBetter x p = x := by
  unfold pickBetter; split
  · exact Or.inl rfl
  · exact Or.inr rfl

theorem pickBetter_discard (x p : String × Nat) :
    precB x (pickBetter x p) = false ∧ precB p (pickBetter x p) = false := by
  unfold pickBetter
  by_cases h : precB p x = true
  · rw [if_pos h]
    exact ⟨precB_asymm p x h, precB_irrefl p⟩
  · rw [if_neg h]
    exact ⟨precB_irrefl x, Bool.not_eq_true _ ▸ h⟩

theorem foldl_pickBetter_spec : ∀ (xs : List (String × Nat)) (x : String × Nat),
    (xs.foldl pickBetter x ∈ x :: xs) ∧
    (∀ p ∈ x :: xs, precB p (xs.foldl pickBetter x) = false) := by
  intro xs
  induction xs with
  | nil =>
      intro x
      refine ⟨List.mem_cons_self x [], ?_⟩
      intro p hp
      rw [List.mem_singleton.mp hp]
      exact precB_irrefl x
  | cons p ps ih =>
      intro x
      obtain ⟨hmem, hbest⟩ := ih (pickBetter x p)
      have hhead : precB (pickBetter x p) (List.foldl pickBetter (pickBetter x p) ps) = false :=
        hbest _ (List.mem_cons_self _ _)
      constructor
      · show List.foldl pickBetter (pickBetter x p) ps ∈ x :: p :: ps
        rcases List.mem_cons.mp hmem with hb | hb
        · rw [hb]
          rcases pickBetter_cases x p with hc | hc <;> rw [hc]
          · exact List.mem_cons_of_mem x (List.mem_cons_self p ps)
          · exact List.mem_cons_self x (p :: ps)
        · exact List.mem_cons_of_mem x (List.mem_cons_of_mem p hb)
      · intro q hq
        show precB q (List.foldl pickBetter (pickBetter x p) ps) = false
        rcases List.mem_cons.mp hq with rfl | hq'
        · exact precB_no_trans q (pickBetter q p) _ (pickBetter_discard q p).1 hhead
        · rcases List.mem_cons.mp hq' with rfl | hq''
          · exact precB_no_trans q (pickBetter x q) _ (pickBetter_discard x q).2 hhead
          · exact hbest q (List.mem_cons_of_mem _ hq'')

/-- C3: the recommendation policy in strict priority order. (1) With no
Knowledge Store attached the curriculum's first entry "tokens" is returned.
(2) If any WeaknessCounter exists, the returned topic is one of the counters'
topics, its count `c` is maximal, and any other row with count `c` does not
sort strictly below it alphabetically (BINARY/alphabetical order on this
ASCII data) — i.e. highest count with ties broken by ascending topic.
(3) With no weaknesses but at least one Attempt whose topic occurs
(case-insensitively) at index `i` of the fixed curriculum, the entry at
`(i+1) mod length` is returned — the next entry, wrapping to the first after
the last. (4)–(5) With no weaknesses and no attempt, or a last topic absent
from the curriculum, the first entry "tokens" is returned. -/
theorem C3_recommendation_policy :
    recommend_next_topic none = "tokens" ∧
    (∀ st : RepoState, st.weaknesses ≠ [] →
      ∃ c, (recommend_next_topic (some st), c) ∈ st.weaknesses ∧
        ∀ p ∈ st.weaknesses,
          p.2 ≤ c ∧ (p.2 = c → strLtB p.1 (recommend_next_topic (some st)) = false)) ∧
    (∀ st : RepoState, ∀ t : String, ∀ i : Nat, st.weaknesses = [] →
      get_last_attempt_topic st = some t →
      curriculum.findIdx? (fun c => c == lowerStr t) = some i →
      recommend_next_topic (some st) = curriculum.getD ((i + 1) % curriculum.length) "") ∧
    (∀ st : RepoState, st.weaknesses = [] → get_last_attempt_topic st = none →
      recommend_next_topic (some st) = "tokens") ∧
    (∀ st : RepoState, ∀ t : String, st.weaknesses = [] →
      get_last_attempt_topic st = some t →
      curriculum.findIdx? (fun c => c == lowerStr t) = none →
      recommend_next_topic (some st) = "tokens") := by
  refine ⟨rfl, ?_, ?_, ?_, ?_⟩
  · rintro ⟨atts, wks⟩ hne
    cases wks with
    | nil => exact absurd rfl hne
    | cons w ws =>
        obtain ⟨hmem, hbest⟩ := foldl_pickBetter_spec ws w
        have hrec : recommend_next_topic (some ⟨atts, w :: ws⟩) =
            (ws.foldl pickBetter w).1 := rfl
        refine ⟨(ws.foldl pickBetter w).2, ?_, ?_⟩
        · rw [hrec, Prod.mk.eta]
          exact hmem
        · intro p hp
          have hpb := hbest p hp
          simp only [precB, Bool.or_eq_false_iff, Bool.and_eq_false_iff,
            decide_eq_false_iff_not, beq_eq_false_iff_ne] at hpb
          obtain ⟨hle, hor⟩ := hpb
          refine ⟨by omega, fun hpc => ?_⟩
          rw [hrec]
          rcases hor with h | h
          · exact absurd hpc.symm h
          · exact h
  · rintro ⟨atts, wks⟩ t i hw hlast hidx
    change wks = [] at hw
    subst hw
    show (match get_last_attempt_topic ⟨atts, []⟩ with
      | none => curriculum.headD ""
      | some t =>
          match curriculum.findIdx? (fun c => c == lowerStr t) with
          | some i => curriculum.getD ((i + 1) % curriculum.length) ""
          | none => curriculum.headD "") = _
    rw [hlast]
    simp only [hidx]
  · rintro ⟨atts, wks⟩ hw hlast
    change wks = [] at hw
    subst hw
    show (match get_last_attempt_topic ⟨atts, []⟩ with
      | none => curriculum.headD ""
      | some t =>
          match curriculum.findIdx? (fun c => c == lowerStr t) with
          | some i => curriculum.getD ((i + 1) % curriculum.length) ""
          | none => curriculum.headD "") = _
    rw [hlast]
    rfl
  · rintro ⟨atts, wks⟩ t hw hlast hidx
    change wks = [] at hw
    subst hw
    show (match get_last_attempt_topic ⟨atts, []⟩ with
      | none => curriculum.headD ""
      | some t =>
          match curriculum.findIdx? (fun c => c == lowerStr t) with
          | some i => curriculum.getD ((i + 1) % curriculum.length) ""
          | none => curriculum.headD "") = _
    rw [hlast]
    simp only [hidx]
    rfl

/-- Witness for C3: the spec's tie-break example (counts rag/prompting/tokens
all 1 selects "prompting") and the wraparound example (last attempt on
"agents", the curriculum's final entry, recommends curriculum[(5+1) % 6]). -/
theorem C3_recommendation_policy_witness :
    (∃ c, (recommend_next_topic
          (some ⟨[], [("rag", 1), ("prompting", 1), ("tokens", 1)]⟩), c) ∈
        [("rag", 1), ("prompting", 1), ("tokens", 1)] ∧
      ∀ p ∈ [("rag", 1), ("prompting", 1), ("tokens", 1)],
        p.2 ≤ c ∧ (p.2 = c → strLtB p.1 (recommend_next_topic
          (some ⟨[], [("rag", 1), ("prompting", 1), ("tokens", 1)]⟩)) = false)) ∧
    recommend_next_topic (some ⟨[⟨"agents", "a", 85, "f", 0, none, none⟩], []⟩) =
      curriculum.getD ((5 + 1) % curriculum.length) "" :=
  ⟨C3_recommendation_policy.2.1 ⟨[], [("rag", 1), ("prompting", 1), ("tokens", 1)]⟩
      (by decide),
    C3_recommendation_policy.2.2.1 ⟨[⟨"agents", "a", 85, "f", 0, none, none⟩], []⟩
      "agents" 5 rfl (by decide) (by decide)⟩

